import Mathlib

/-!
Verification development for the Elastic connector adapter
(`msticpy/data/drivers/elastic_driver.py`).

The adapter's observable behaviour is embedded shallowly:

* Python dictionaries become association lists over a `Value` type, with
  `dictGet` / `dictSet` / `dictUpdate` modelling `dict.__getitem__`,
  `dict.__setitem__` and `dict.update` (on duplicate-free key lists these
  coincide with CPython's semantics; Python dicts never hold duplicate keys).
* `_get_connect_args` becomes `get_connect_args`, returning
  `Except ElasticError` instead of raising; the stored settings returned by
  `_get_config_settings` are passed in as an explicit read-only mapping.
* The driver instance (together with the class attribute
  `_CONNECT_DEFAULTS`, which the instance reads and — via dict aliasing —
  writes) becomes the structure `ElasticDriver`, and `connect` / `query`
  become state-passing functions.
* `str.join`, f-string quoting and `datetime.isoformat` are embedded as
  `pyJoin`, explicit `++` concatenation and `isoformatSpace` following
  CPython's documented behaviour (naive datetimes; the fractional part is
  omitted exactly when `microsecond == 0`).
-/

set_option autoImplicit false

/-- A Python value as it occurs in the adapter's connection dictionaries. -/
inductive Value where
  | str (s : String)
  | int (n : Int)
  | bool (b : Bool)
  deriving DecidableEq, Repr

/-- Python `dict` lookup on an association list (first binding wins;
duplicate keys never occur in dictionaries produced by the model). -/
def dictGet : List (String × Value) → String → Option Value
  | [], _ => none
  | (k', v) :: rest, k => if k' = k then some v else dictGet rest k

/-- Python `dict.__setitem__`: replace the binding if the key is present,
otherwise append the new binding at the end. -/
def dictSet : List (String × Value) → String → Value → List (String × Value)
  | [], k, v => [(k, v)]
  | (k', v') :: rest, k, v =>
    if k' = k then (k, v) :: rest else (k', v') :: dictSet rest k v

/-- Python `dict.update`: set every binding of `other` in order. -/
def dictUpdate (d other : List (String × Value)) : List (String × Value) :=
  other.foldl (fun acc p => dictSet acc p.1 p.2) d

/-- Python `dict.keys()` as a list. -/
def dictKeys (d : List (String × Value)) : List String :=
  d.map Prod.fst

/-- Python `sep.join(parts)`. -/
def pyJoin (sep : String) : List String → String
  | [] => ""
  | [x] => x
  | x :: xs => x ++ sep ++ pyJoin sep xs

/-- The module-level `ELASTIC_CONNECT_ARGS` dictionary: recognized
connection options with their description strings. -/
def ELASTIC_CONNECT_ARGS : List (String × String) :=
  [ ("host", "(string) The host name (the default is 'localhost')."),
    ("port", "(integer) The port number (the default is 8089)."),
    ("use_ssl", "(bool) Use SSL for accessing the service (default True)"),
    ("verify_certs", "(bool) Verify server cert (default True)"),
    ("username", "(string) The username used for authentication"),
    ("password", "(string) The password for specified user.") ]

/-- `list(ELASTIC_CONNECT_ARGS.keys())`, the allow-list of recognized keys. -/
def elasticConnectKeys : List String :=
  ELASTIC_CONNECT_ARGS.map Prod.fst

/-- The class attribute `_ELASTIC_REQD_ARGS`. -/
def ELASTIC_REQD_ARGS : List String :=
  ["host", "username", "password"]

/-- The class attribute `_CONNECT_DEFAULTS` as initialised at class-creation
time: `{"port": 9200, "use_ssl": True, "verify_certs": True}`. -/
def CONNECT_DEFAULTS : List (String × Value) :=
  [("port", Value.int 9200), ("use_ssl", Value.bool true),
   ("verify_certs", Value.bool true)]

/-- The errors `_get_connect_args` can raise.  `userConfig` records the
positional message arguments of the `MsticpyUserConfigError` call site:
the main message, the missing keys (the source joins the set
`set(_ELASTIC_REQD_ARGS) - cs_dict.keys()` with `", "`; the model keeps
the list in `_ELASTIC_REQD_ARGS` order, which has the same members), the
required-parameters sentence, the "All parameters:" header, one
`"{arg}: {desc}"` line per recognized option, and the `title` keyword. -/
inductive ElasticError where
  | unrecognizedArgument (badArgs : List String)
  | userConfig (message : String) (missingArgs : List String)
      (requiredMsg : String) (header : String)
      (paramDescs : List String) (title : String)
  deriving DecidableEq, Repr

/-- Modelled from the spec: `check_kwargs` from `msticpy.common.utility` is
not under `src/`; the spec says the adapter "may rely on a shared helper
that rejects unrecognized keyword names against an allow-list", raising
`UnrecognizedArgumentError` "when a caller supplies a keyword not in the
recognized set".  The model collects the keys outside the allow-list and
fails on them when any exist. -/
def check_kwargs (argDict : List (String × Value)) (legalArgs : List String) :
    Except ElasticError Unit :=
  let badArgs := (dictKeys argDict).filter (fun k => !(legalArgs.contains k))
  if badArgs.isEmpty then Except.ok () else
    Except.error (ElasticError.unrecognizedArgument badArgs)

/-- The consolidation performed by `_get_connect_args` before validation:
`cs_dict = self._CONNECT_DEFAULTS; cs_dict.update(stored); cs_dict.update(kwargs)`.
Note the source binds `cs_dict` to the class attribute itself (no `.copy()`),
so in `connect` this consolidated dictionary also becomes the new value of
`_CONNECT_DEFAULTS`. -/
def consolidateArgs (defaults stored kwargs : List (String × Value)) :
    List (String × Value) :=
  dictUpdate (dictUpdate defaults stored) kwargs

/-- The missing-parameter list `set(_ELASTIC_REQD_ARGS) - cs_dict.keys()`
(kept in required-list order). -/
def missingReqdArgs (csDict : List (String × Value)) : List String :=
  ELASTIC_REQD_ARGS.filter (fun k => !((dictKeys csDict).contains k))

/-- The per-option description lines `f"{arg}: {desc}"`. -/
def elasticParamDescLines : List String :=
  ELASTIC_CONNECT_ARGS.map (fun p => p.1 ++ ": " ++ p.2)

/-- `_get_connect_args`: consolidate defaults, stored settings and keyword
overrides, reject unrecognized keys, then fail if required keys are
missing; `defaults` is the current value of the class attribute
`_CONNECT_DEFAULTS` and `stored` the mapping returned by
`_get_config_settings`. -/
def get_connect_args (defaults stored kwargs : List (String × Value)) :
    Except ElasticError (List (String × Value)) :=
  let csDict := consolidateArgs defaults stored kwargs
  match check_kwargs csDict elasticConnectKeys with
  | Except.error e => Except.error e
  | Except.ok _ =>
    let missingArgs := missingReqdArgs csDict
    if missingArgs.isEmpty then Except.ok csDict else
      Except.error (ElasticError.userConfig
        "One or more connection parameters missing for Elastic connector"
        missingArgs
        ("Required parameters are " ++ pyJoin ", " ELASTIC_REQD_ARGS)
        "All parameters:"
        elasticParamDescLines
        "no Elastic connection parameters")

/-- The mutable state of an `ElasticDriver` instance: `service`,
`_connected` and `_loaded` from `__init__`, plus the class attribute
`_CONNECT_DEFAULTS`, which `_get_connect_args` reads and (through dict
aliasing, there being no `.copy()`) overwrites with the consolidated
dictionary. `service` would hold an `Elasticsearch` session handle; the
commented-out client call never assigns it, so `Unit` suffices as the
handle type. -/
structure ElasticDriver where
  service : Option Unit
  connected : Bool
  loaded : Bool
  connectDefaults : List (String × Value)
  deriving DecidableEq, Repr

/-- `__init__`: `service = None`, `_loaded = True`, `_connected = False`,
with `_CONNECT_DEFAULTS` still holding its class-creation value. -/
def ElasticDriver.init : ElasticDriver :=
  { service := none, connected := false, loaded := true,
    connectDefaults := CONNECT_DEFAULTS }

/-- `connect`: run `_get_connect_args` against the current
`_CONNECT_DEFAULTS` and the stored settings, filter to recognized keys
(the filtered `arg_dict` is computed but unused — the client call is
commented out), and print `"connected"`.  The returned state carries the
mutated `_CONNECT_DEFAULTS` (the in-place `update`s happen before either
validation check, so the mutation survives even a failing call); the
second component is the list of printed lines on success, or the raised
error. -/
def ElasticDriver.connect (st : ElasticDriver)
    (stored kwargs : List (String × Value)) :
    ElasticDriver × Except ElasticError (List String) :=
  let st' := { st with
    connectDefaults := consolidateArgs st.connectDefaults stored kwargs }
  match get_connect_args st.connectDefaults stored kwargs with
  | Except.error e => (st', Except.error e)
  | Except.ok csDict =>
    let _argDict := csDict.filter (fun p => elasticConnectKeys.contains p.1)
    (st', Except.ok ["connected"])

/-- A pandas `DataFrame` as far as this adapter is concerned: `query`
never builds one, so the carrier is irrelevant. -/
structure DataFrame where
  rows : List (List Value)
  deriving DecidableEq, Repr

/-- `query`: the body is `return None`, whatever the query string, the
query-source object, the keyword arguments and the driver state. -/
def ElasticDriver.query (_st : ElasticDriver) (_query : String)
    (_querySource : Option Unit) (_kwargs : List (String × Value)) :
    Option DataFrame :=
  none

/-- One externally-visible call on a driver instance. -/
inductive DriverOp where
  | connectOp (stored kwargs : List (String × Value))
  | queryOp (q : String) (querySource : Option Unit)
      (kwargs : List (String × Value))
  deriving Repr

/-- The state reached after one call (`query` returns a value but touches
no state; `connect` threads its state whether it succeeds or fails). -/
def ElasticDriver.step (st : ElasticDriver) : DriverOp → ElasticDriver
  | DriverOp.connectOp stored kwargs => (st.connect stored kwargs).1
  | DriverOp.queryOp _ _ _ => st

/-- The state after a sequence of calls on a freshly constructed driver. -/
def ElasticDriver.runOps (st : ElasticDriver) (ops : List DriverOp) :
    ElasticDriver :=
  ops.foldl ElasticDriver.step st

/-- A naive (timezone-free) CPython `datetime.datetime` value; field
ranges as enforced by the `datetime` constructor. -/
structure PyDatetime where
  year : Nat
  month : Nat
  day : Nat
  hour : Nat
  minute : Nat
  second : Nat
  microsecond : Nat
  deriving DecidableEq, Repr

/-- The `datetime` constructor's range checks (`MINYEAR = 1`,
`MAXYEAR = 9999`, and so on). -/
def PyDatetime.valid (dt : PyDatetime) : Prop :=
  1 ≤ dt.year ∧ dt.year ≤ 9999 ∧ 1 ≤ dt.month ∧ dt.month ≤ 12 ∧
  1 ≤ dt.day ∧ dt.day ≤ 31 ∧ dt.hour ≤ 23 ∧ dt.minute ≤ 59 ∧
  dt.second ≤ 59 ∧ dt.microsecond ≤ 999999

instance (dt : PyDatetime) : Decidable dt.valid := by
  unfold PyDatetime.valid; infer_instance

/-- Zero-pad the decimal form of `n` on the left to width `w` (CPython's
`%0wd` on the non-negative field values of a datetime). -/
def padZero (w : Nat) (n : Nat) : String :=
  let s := toString n
  String.mk (List.replicate (w - s.length) '0') ++ s

/-- CPython `datetime.isoformat(sep=" ")` on a naive value:
`YYYY-MM-DD HH:MM:SS`, extended with `.ffffff` exactly when
`microsecond` is nonzero. -/
def isoformatSpace (dt : PyDatetime) : String :=
  padZero 4 dt.year ++ "-" ++ padZero 2 dt.month ++ "-" ++ padZero 2 dt.day
    ++ " " ++ padZero 2 dt.hour ++ ":" ++ padZero 2 dt.minute ++ ":"
    ++ padZero 2 dt.second
    ++ (if dt.microsecond = 0 then "" else "." ++ padZero 6 dt.microsecond)

/-- `_format_datetime`: `f'"{date_time.isoformat(sep=" ")}"'`. -/
def format_datetime (date_time : PyDatetime) : String :=
  "\"" ++ isoformatSpace date_time ++ "\""

/-- The form the spec prescribes for `_format_datetime`'s output, written
from the spec's words: the exact shape `"YYYY-MM-DD HH:MM:SS.ffffff"`,
date and time separated by a single space, always with a six-digit
fractional-seconds part, one double quote at each end. -/
def specDatetimeForm (dt : PyDatetime) : String :=
  "\"" ++ padZero 4 dt.year ++ "-" ++ padZero 2 dt.month ++ "-"
    ++ padZero 2 dt.day ++ " " ++ padZero 2 dt.hour ++ ":"
    ++ padZero 2 dt.minute ++ ":" ++ padZero 2 dt.second ++ "."
    ++ padZero 6 dt.microsecond ++ "\""

/-- `_format_list`: `fmt_list = [f'"{item}"' for item in param_list];
return ",".join(fmt_list)`.  Items are taken already stringified (the
f-string applies `str` to each item). -/
def format_list (param_list : List String) : String :=
  pyJoin "," (param_list.map (fun item => "\"" ++ item ++ "\""))

/-- The output shape the spec prescribes for `_format_list`, written from
the spec's words: the comma-separated concatenation of the items each
wrapped in double quotes, with no surrounding brackets. -/
def specQuotedJoin : List String → String
  | [] => ""
  | [x] => "\"" ++ x ++ "\""
  | x :: xs => "\"" ++ x ++ "\"" ++ "," ++ specQuotedJoin xs

/-- A well-formed sequence of quoted literals: some list of items, none of
which contains a double-quote character, rendered as comma-separated
double-quoted literals. -/
def IsWellFormedQuotedSeq (s : String) : Prop :=
  ∃ items : List String,
    (∀ it ∈ items, '\"' ∉ it.data) ∧ specQuotedJoin items = s

/-- Occurrences of the double-quote character in a string. -/
def quoteCount (s : String) : Nat :=
  s.data.count '\"'

/-! ### Dictionary lemmas -/

theorem dictGet_eq_none_of_not_mem {d : List (String × Value)} {k : String}
    (h : k ∉ dictKeys d) : dictGet d k = none := by
  induction d with
  | nil => rfl
  | cons p rest ih =>
    obtain ⟨k', v⟩ := p
    simp only [dictKeys, List.map_cons, List.mem_cons, not_or] at h
    simpa [dictGet, Ne.symm h.1] using ih (by simpa [dictKeys] using h.2)

theorem dictGet_dictSet_self (d : List (String × Value)) (k : String)
    (v : Value) : dictGet (dictSet d k v) k = some v := by
  induction d with
  | nil => simp [dictSet, dictGet]
  | cons p rest ih =>
    obtain ⟨k', v'⟩ := p
    by_cases hk : k' = k <;> simp [dictSet, dictGet, hk, ih]

theorem dictGet_dictSet_ne (d : List (String × Value)) {k k' : String}
    (v : Value) (h : k' ≠ k) : dictGet (dictSet d k' v) k = dictGet d k := by
  induction d with
  | nil => simp [dictSet, dictGet, h]
  | cons p rest ih =>
    obtain ⟨k'', v''⟩ := p
    by_cases hk : k'' = k' <;> by_cases hk2 : k'' = k <;>
      simp_all [dictSet, dictGet]

theorem dictKeys_cons (p : String × Value) (d : List (String × Value)) :
    dictKeys (p :: d) = p.1 :: dictKeys d := rfl

theorem mem_dictKeys_dictSet {d : List (String × Value)} {k a : String}
    {v : Value} : a ∈ dictKeys (dictSet d k v) ↔ a ∈ dictKeys d ∨ a = k := by
  induction d with
  | nil => simp [dictSet, dictKeys]
  | cons p rest ih =>
    obtain ⟨k', v'⟩ := p
    by_cases hk : k' = k
    · subst hk
      rw [show dictSet ((k', v') :: rest) k' v = (k', v) :: rest
        from by simp [dictSet]]
      simp only [dictKeys_cons, List.mem_cons]
      tauto
    · rw [show dictSet ((k', v') :: rest) k v = (k', v') :: dictSet rest k v
        from by simp [dictSet, hk]]
      simp only [dictKeys_cons, List.mem_cons]
      rw [ih]
      tauto

theorem dictUpdate_cons (d : List (String × Value)) (k : String) (v : Value)
    (rest : List (String × Value)) :
    dictUpdate d ((k, v) :: rest) = dictUpdate (dictSet d k v) rest := rfl

theorem dictGet_dictUpdate_of_not_mem {o : List (String × Value)}
    {k : String} (d : List (String × Value)) (h : k ∉ dictKeys o) :
    dictGet (dictUpdate d o) k = dictGet d k := by
  induction o generalizing d with
  | nil => rfl
  | cons p rest ih =>
    obtain ⟨k', v'⟩ := p
    simp only [dictKeys, List.map_cons, List.mem_cons, not_or] at h
    rw [dictUpdate_cons, ih _ (by simpa [dictKeys] using h.2),
      dictGet_dictSet_ne _ _ (Ne.symm h.1)]

theorem dictGet_dictUpdate_of_mem {o : List (String × Value)} {k : String}
    {v : Value} (d : List (String × Value)) (hnd : (dictKeys o).Nodup)
    (h : dictGet o k = some v) : dictGet (dictUpdate d o) k = some v := by
  induction o generalizing d with
  | nil => simp [dictGet] at h
  | cons p rest ih =>
    obtain ⟨k', v'⟩ := p
    simp only [dictKeys, List.map_cons, List.nodup_cons] at hnd
    by_cases hk : k' = k
    · subst hk
      have hv : v' = v := by simpa [dictGet] using h
      subst hv
      rw [dictUpdate_cons,
        dictGet_dictUpdate_of_not_mem _ (by simpa [dictKeys] using hnd.1),
        dictGet_dictSet_self]
    · simp only [dictGet, if_neg hk] at h
      rw [dictUpdate_cons]
      exact ih _ (by simpa [dictKeys] using hnd.2) h

theorem mem_dictKeys_dictUpdate {o : List (String × Value)} {a : String}
    (d : List (String × Value)) :
    a ∈ dictKeys (dictUpdate d o) ↔ a ∈ dictKeys d ∨ a ∈ dictKeys o := by
  induction o generalizing d with
  | nil => simp [dictUpdate, dictKeys]
  | cons p rest ih =>
    obtain ⟨k', v'⟩ := p
    rw [dictUpdate_cons, ih, mem_dictKeys_dictSet]
    simp [dictKeys]
    tauto

/-! ### `_get_connect_args` lemmas -/

theorem check_kwargs_ok {d : List (String × Value)} {legal : List String}
    (h : ∀ k ∈ dictKeys d, k ∈ legal) : check_kwargs d legal = Except.ok () := by
  have hnil : (dictKeys d).filter (fun k => !(legal.contains k)) = [] := by
    rw [List.filter_eq_nil_iff]
    intro a ha
    simpa using h a ha
  simp only [check_kwargs, hnil]
  rfl

theorem check_kwargs_error {d : List (String × Value)} {legal : List String}
    {k : String} (hk : k ∈ dictKeys d) (hnk : k ∉ legal) :
    check_kwargs d legal = Except.error (ElasticError.unrecognizedArgument
      ((dictKeys d).filter (fun k => !(legal.contains k)))) := by
  have hmem : k ∈ (dictKeys d).filter (fun k => !(legal.contains k)) :=
    List.mem_filter.2 ⟨hk, by simpa using hnk⟩
  have hfalse : ((dictKeys d).filter (fun k => !(legal.contains k))).isEmpty
      = false := by
    simp only [List.isEmpty_eq_false]
    exact List.ne_nil_of_mem hmem
  simp only [check_kwargs, hfalse]
  simp

theorem get_connect_args_error_of_missing
    {defaults stored kwargs : List (String × Value)}
    (hrec : ∀ k ∈ dictKeys (consolidateArgs defaults stored kwargs),
      k ∈ elasticConnectKeys)
    (hmiss : missingReqdArgs (consolidateArgs defaults stored kwargs) ≠ []) :
    get_connect_args defaults stored kwargs =
      Except.error (ElasticError.userConfig
        "One or more connection parameters missing for Elastic connector"
        (missingReqdArgs (consolidateArgs defaults stored kwargs))
        ("Required parameters are " ++ pyJoin ", " ELASTIC_REQD_ARGS)
        "All parameters:"
        elasticParamDescLines
        "no Elastic connection parameters") := by
  have hko := check_kwargs_ok hrec
  simp [get_connect_args, hko, hmiss]

theorem get_connect_args_ok_of_complete
    {defaults stored kwargs : List (String × Value)}
    (hrec : ∀ k ∈ dictKeys (consolidateArgs defaults stored kwargs),
      k ∈ elasticConnectKeys)
    (hmiss : missingReqdArgs (consolidateArgs defaults stored kwargs) = []) :
    get_connect_args defaults stored kwargs =
      Except.ok (consolidateArgs defaults stored kwargs) := by
  have hko := check_kwargs_ok hrec
  simp [get_connect_args, hko, hmiss]

theorem mem_missingReqdArgs {csDict : List (String × Value)} {k : String} :
    k ∈ missingReqdArgs csDict ↔
      k ∈ ELASTIC_REQD_ARGS ∧ k ∉ dictKeys csDict := by
  simp [missingReqdArgs, List.mem_filter]

/-! ### Formatter lemmas -/

theorem format_list_eq_specQuotedJoin : ∀ l : List String,
    format_list l = specQuotedJoin l
  | [] => rfl
  | [_] => rfl
  | x :: y :: ys => by
    have ih := format_list_eq_specQuotedJoin (y :: ys)
    simp only [format_list, List.map_cons, pyJoin, specQuotedJoin] at ih ⊢
    rw [ih]

theorem quoteCount_append (a b : String) :
    quoteCount (a ++ b) = quoteCount a + quoteCount b := by
  simp [quoteCount, String.data_append]

theorem quoteCount_specQuotedJoin : ∀ items : List String,
    (∀ it ∈ items, '\"' ∉ it.data) →
    quoteCount (specQuotedJoin items) = 2 * items.length
  | [], _ => rfl
  | [x], h => by
    have hx : quoteCount x = 0 :=
      List.count_eq_zero.2 (h x (List.mem_singleton.2 rfl))
    have e : specQuotedJoin [x] = "\"" ++ x ++ "\"" := rfl
    rw [e, quoteCount_append, quoteCount_append, hx]
    rfl
  | x :: y :: ys, h => by
    have hx : quoteCount x = 0 :=
      List.count_eq_zero.2 (h x (List.mem_cons_self x (y :: ys)))
    have ih := quoteCount_specQuotedJoin (y :: ys)
      (fun it hit => h it (List.mem_cons_of_mem x hit))
    have e : specQuotedJoin (x :: y :: ys) =
        "\"" ++ x ++ "\"" ++ "," ++ specQuotedJoin (y :: ys) := rfl
    rw [e, quoteCount_append, quoteCount_append, quoteCount_append,
      quoteCount_append, hx, ih]
    have q1 : quoteCount "\"" = 1 := rfl
    have q2 : quoteCount "," = 0 := rfl
    rw [q1, q2]
    simp only [List.length_cons]
    omega

theorem specQuotedJoin_infix : ∀ (l : List String) (s : String), s ∈ l →
    ∃ p q, specQuotedJoin l = p ++ ("\"" ++ s ++ "\"") ++ q
  | [], s, h => absurd h (List.not_mem_nil s)
  | [x], s, h => by
    rcases List.mem_singleton.1 h with rfl
    exact ⟨"", "", by simp [specQuotedJoin]⟩
  | x :: y :: ys, s, h => by
    rcases List.mem_cons.1 h with rfl | hs
    · refine ⟨"", "," ++ specQuotedJoin (y :: ys), ?_⟩
      rw [show specQuotedJoin (s :: y :: ys) =
        "\"" ++ s ++ "\"" ++ "," ++ specQuotedJoin (y :: ys) from rfl]
      simp only [String.append_assoc, String.empty_append]
    · obtain ⟨p, q, hpq⟩ := specQuotedJoin_infix (y :: ys) s hs
      refine ⟨"\"" ++ x ++ "\"" ++ "," ++ p, q, ?_⟩
      rw [show specQuotedJoin (x :: y :: ys) =
        "\"" ++ x ++ "\"" ++ "," ++ specQuotedJoin (y :: ys) from rfl, hpq]
      simp only [String.append_assoc]

/-! ### Driver-state lemmas -/

theorem connect_fst (st : ElasticDriver)
    (stored kwargs : List (String × Value)) :
    (st.connect stored kwargs).1 =
      { st with connectDefaults :=
          consolidateArgs st.connectDefaults stored kwargs } := by
  simp only [ElasticDriver.connect]
  split <;> rfl

theorem step_session_fields (st : ElasticDriver) (op : DriverOp) :
    (st.step op).connected = st.connected ∧
    (st.step op).service = st.service ∧
    (st.step op).loaded = st.loaded := by
  cases op with
  | connectOp stored kwargs =>
    simp [ElasticDriver.step, connect_fst]
  | queryOp q qs kw => exact ⟨rfl, rfl, rfl⟩

theorem runOps_session_fields : ∀ (ops : List DriverOp) (st : ElasticDriver),
    (st.runOps ops).connected = st.connected ∧
    (st.runOps ops).service = st.service ∧
    (st.runOps ops).loaded = st.loaded
  | [], _ => ⟨rfl, rfl, rfl⟩
  | op :: ops, st => by
    have h1 := step_session_fields st op
    have h2 := runOps_session_fields ops (st.step op)
    rw [show st.runOps (op :: ops) = (st.step op).runOps ops from rfl]
    exact ⟨h2.1.trans h1.1, h2.2.1.trans h1.2.1, h2.2.2.trans h1.2.2⟩

/-! ### Concrete inputs used by the claims -/

/-- The stored settings of the spec's precedence example. -/
def storedC1 : List (String × Value) :=
  [("port", Value.int 9400), ("host", Value.str "h"),
   ("username", Value.str "u"), ("password", Value.str "p")]

/-- The keyword overrides of the spec's precedence example. -/
def overridesC1 : List (String × Value) :=
  [("port", Value.int 9300)]

/-- Keyword overrides supplying all three required parameters. -/
def kwFull : List (String × Value) :=
  [("host", Value.str "h"), ("username", Value.str "u"),
   ("password", Value.str "p")]

/-- Keyword overrides supplying username and password but no host. -/
def kwNoHost : List (String × Value) :=
  [("username", Value.str "u"), ("password", Value.str "p")]

/-- Keyword overrides supplying only a username. -/
def kwUserOnly : List (String × Value) :=
  [("username", Value.str "u")]

/-- Keyword overrides containing an unrecognized key. -/
def kwBogus : List (String × Value) :=
  [("bogus", Value.str "x")]

/-- Stored settings supplying username and password but no host. -/
def storedUserPass : List (String × Value) :=
  [("username", Value.str "u"), ("password", Value.str "p")]

/-- A datetime with a zero microsecond component. -/
def dtZeroMicro : PyDatetime := ⟨2020, 1, 1, 0, 0, 0, 0⟩

/-- A datetime with a nonzero microsecond component. -/
def dtWithMicro : PyDatetime := ⟨2020, 12, 31, 23, 59, 59, 123⟩

/-! ### Claims -/

/-- C1: in `connect()`, parameter consolidation is a three-way ordered
overlay: every key the keyword overrides map keeps the override's value
in the consolidated mapping (in particular every key shared with the
stored settings), every key the stored settings map and the overrides do
not keeps the stored value (stored settings beat the defaults); with
overrides `{port: 9300}` and stored settings
`{port: 9400, host: "h", username: "u", password: "p"}` the consolidated
arguments have `port = 9300`. -/
theorem connect_overlay_precedence :
    (∀ (stored kwargs : List (String × Value)) (k : String) (v : Value),
      (dictKeys kwargs).Nodup → dictGet kwargs k = some v →
      dictGet (consolidateArgs CONNECT_DEFAULTS stored kwargs) k = some v) ∧
    (∀ (stored kwargs : List (String × Value)) (k : String) (v : Value),
      (dictKeys stored).Nodup → k ∉ dictKeys kwargs →
      dictGet stored k = some v →
      dictGet (consolidateArgs CONNECT_DEFAULTS stored kwargs) k = some v) ∧
    dictGet (consolidateArgs CONNECT_DEFAULTS storedC1 overridesC1) "port" =
      some (Value.int 9300) := by
  refine ⟨?_, ?_, by decide⟩
  · intro stored kwargs k v hnd hget
    exact dictGet_dictUpdate_of_mem _ hnd hget
  · intro stored kwargs k v hnd hk hget
    rw [consolidateArgs, dictGet_dictUpdate_of_not_mem _ hk]
    exact dictGet_dictUpdate_of_mem _ hnd hget

/-- Witness for C1: applying the overlay theorem at the spec's example
yields `port = 9300`. -/
theorem connect_overlay_precedence_witness :
    dictGet (consolidateArgs CONNECT_DEFAULTS storedC1 overridesC1) "port" =
      some (Value.int 9300) :=
  connect_overlay_precedence.1 storedC1 overridesC1 "port" (Value.int 9300)
    (by decide) (by decide)

/-- C2 (code bug): `_get_connect_args` binds `cs_dict` to the class
attribute `_CONNECT_DEFAULTS` without copying and then updates it in
place, so a `connect()` call rewrites the default mapping: after one
call with host/username/password overrides the defaults hold six
entries, and a second call on the same driver that supplies no host
succeeds (host leaked into the defaults) where a fresh driver's call
fails with the missing-host error. -/
theorem connect_mutates_defaults :
    ((ElasticDriver.init.connect [] kwFull).1).connectDefaults =
      [("port", Value.int 9200), ("use_ssl", Value.bool true),
       ("verify_certs", Value.bool true), ("host", Value.str "h"),
       ("username", Value.str "u"), ("password", Value.str "p")] ∧
    (((ElasticDriver.init.connect [] kwFull).1).connectDefaults).length = 6 ∧
    CONNECT_DEFAULTS.length = 3 ∧
    (ElasticDriver.init.connect [] kwNoHost).2 =
      Except.error (ElasticError.userConfig
        "One or more connection parameters missing for Elastic connector"
        ["host"]
        "Required parameters are host, username, password"
        "All parameters:" elasticParamDescLines
        "no Elastic connection parameters") ∧
    (((ElasticDriver.init.connect [] kwFull).1).connect [] kwNoHost).2 =
      Except.ok ["connected"] :=
  ⟨by decide, by decide, by decide, by rfl, by rfl⟩

/-- C6: `query()` is a stub: for every driver state, query string,
query-source object and keyword mapping it returns nothing and raises no
error (its return type carries no error case). -/
theorem query_returns_none :
    ∀ (st : ElasticDriver) (q : String) (qs : Option Unit)
      (kwargs : List (String × Value)),
      st.query q qs kwargs = none :=
  fun _ _ _ _ => rfl

/-- C7: the session state of a driver instance is invariant: after
construction and after every sequence of `connect()` and `query()` calls
(succeeding or failing), `_connected` is false, `service` is `None` and
`_loaded` is true; and a succeeding `connect()` only prints the
unconditional `"connected"` notification. -/
theorem session_state_invariant :
    (∀ ops : List DriverOp,
      (ElasticDriver.init.runOps ops).connected = false ∧
      (ElasticDriver.init.runOps ops).service = none ∧
      (ElasticDriver.init.runOps ops).loaded = true) ∧
    (∀ (st : ElasticDriver) (stored kwargs : List (String × Value))
      (printed : List String),
      (st.connect stored kwargs).2 = Except.ok printed →
      printed = ["connected"]) := by
  constructor
  · intro ops
    exact runOps_session_fields ops ElasticDriver.init
  · intro st stored kwargs printed h
    cases hg : get_connect_args st.connectDefaults stored kwargs with
    | error e => simp [ElasticDriver.connect, hg] at h
    | ok cs =>
      simp [ElasticDriver.connect, hg] at h
      exact h.symm

/-- Witness for C7: a connect-then-query run leaves the session fields at
their construction values, and the successful connect call printed
exactly `"connected"`. -/
theorem session_state_invariant_witness :
    ((ElasticDriver.init.runOps
      [DriverOp.connectOp [] kwFull,
       DriverOp.queryOp "q" none []]).connected = false ∧
     (ElasticDriver.init.runOps
      [DriverOp.connectOp [] kwFull,
       DriverOp.queryOp "q" none []]).service = none ∧
     (ElasticDriver.init.runOps
      [DriverOp.connectOp [] kwFull,
       DriverOp.queryOp "q" none []]).loaded = true) ∧
    (["connected"] : List String) = ["connected"] :=
  ⟨session_state_invariant.1 _,
   session_state_invariant.2 ElasticDriver.init [] kwFull ["connected"]
     (by rfl)⟩

/-- C3 counterexample: with empty stored settings and overrides
`{bogus: "x"}`, consolidation misses all of host, username and password,
yet `_get_connect_args` raises the unrecognized-argument error — not the
missing-parameter configuration error the claim prescribes for every
such mapping (the allow-list check fires first). -/
theorem missing_key_error_counterexample :
    missingReqdArgs (consolidateArgs CONNECT_DEFAULTS [] kwBogus) =
      ["host", "username", "password"] ∧
    get_connect_args CONNECT_DEFAULTS [] kwBogus =
      Except.error (ElasticError.unrecognizedArgument ["bogus"]) ∧
    get_connect_args CONNECT_DEFAULTS [] kwBogus ≠
      Except.error (ElasticError.userConfig
        "One or more connection parameters missing for Elastic connector"
        ["host", "username", "password"]
        "Required parameters are host, username, password"
        "All parameters:" elasticParamDescLines
        "no Elastic connection parameters") :=
  ⟨by decide, by rfl, fun h => by
    rw [show get_connect_args CONNECT_DEFAULTS [] kwBogus =
      Except.error (ElasticError.unrecognizedArgument ["bogus"]) from rfl]
      at h
    simp at h⟩

/-- C3 (amended): for every stored-settings and override mapping whose
consolidation with the defaults contains only recognized keys, a
consolidation missing any of host/username/password makes the call fail
with the configuration error whose missing-argument list is exactly the
required keys absent from the consolidation, whose required-parameters
sentence lists host, username, password in full, and which carries one
description line per recognized option (six in all); when all three
required keys are present this error is not raised and the consolidated
arguments are returned. -/
theorem missing_key_error_amended :
    ∀ (stored kwargs : List (String × Value)),
      (∀ k ∈ dictKeys (consolidateArgs CONNECT_DEFAULTS stored kwargs),
        k ∈ elasticConnectKeys) →
      ((missingReqdArgs (consolidateArgs CONNECT_DEFAULTS stored kwargs) ≠ [] →
        get_connect_args CONNECT_DEFAULTS stored kwargs =
          Except.error (ElasticError.userConfig
            "One or more connection parameters missing for Elastic connector"
            (missingReqdArgs (consolidateArgs CONNECT_DEFAULTS stored kwargs))
            ("Required parameters are " ++ pyJoin ", " ELASTIC_REQD_ARGS)
            "All parameters:" elasticParamDescLines
            "no Elastic connection parameters")) ∧
      (∀ k, k ∈ missingReqdArgs (consolidateArgs CONNECT_DEFAULTS stored kwargs)
          ↔ (k ∈ ELASTIC_REQD_ARGS ∧
             k ∉ dictKeys (consolidateArgs CONNECT_DEFAULTS stored kwargs))) ∧
      (missingReqdArgs (consolidateArgs CONNECT_DEFAULTS stored kwargs) = [] →
        get_connect_args CONNECT_DEFAULTS stored kwargs =
          Except.ok (consolidateArgs CONNECT_DEFAULTS stored kwargs)) ∧
      ("Required parameters are " ++ pyJoin ", " ELASTIC_REQD_ARGS =
        "Required parameters are host, username, password") ∧
      elasticParamDescLines.length = 6) := by
  intro stored kwargs hrec
  exact ⟨fun hne => get_connect_args_error_of_missing hrec hne,
    fun k => mem_missingReqdArgs,
    fun hnil => get_connect_args_ok_of_complete hrec hnil,
    by decide, by decide⟩

/-- Witness for C3: with only a username supplied, the call fails with
the configuration error listing host and password as missing. -/
theorem missing_key_error_amended_witness :
    get_connect_args CONNECT_DEFAULTS [] kwUserOnly =
      Except.error (ElasticError.userConfig
        "One or more connection parameters missing for Elastic connector"
        (missingReqdArgs (consolidateArgs CONNECT_DEFAULTS [] kwUserOnly))
        ("Required parameters are " ++ pyJoin ", " ELASTIC_REQD_ARGS)
        "All parameters:" elasticParamDescLines
        "no Elastic connection parameters") :=
  (missing_key_error_amended [] kwUserOnly (by decide)).1 (by decide)

/-- C4 counterexample: with username and password supplied and host
supplied nowhere, the consolidated arguments hold no host entry — there
is no `"localhost"` default — and the call fails with the
missing-parameter error naming host, instead of succeeding. -/
theorem host_default_counterexample :
    dictGet (consolidateArgs CONNECT_DEFAULTS [] kwNoHost) "host" = none ∧
    get_connect_args CONNECT_DEFAULTS [] kwNoHost =
      Except.error (ElasticError.userConfig
        "One or more connection parameters missing for Elastic connector"
        ["host"]
        "Required parameters are host, username, password"
        "All parameters:" elasticParamDescLines
        "no Elastic connection parameters") :=
  ⟨by decide, by rfl⟩

/-- C4 (amended): the host parameter has no default value: whenever
neither the stored settings nor the keyword overrides supply host, the
consolidated arguments contain no host entry, host is among the missing
required keys, and — when every consolidated key is recognized — the
call fails with the missing-parameter configuration error rather than
succeeding with `host = "localhost"`. -/
theorem host_required_no_default :
    ∀ (stored kwargs : List (String × Value)),
      "host" ∉ dictKeys stored → "host" ∉ dictKeys kwargs →
      (dictGet (consolidateArgs CONNECT_DEFAULTS stored kwargs) "host"
          = none ∧
       "host" ∈ missingReqdArgs (consolidateArgs CONNECT_DEFAULTS stored
          kwargs) ∧
       ((∀ k ∈ dictKeys (consolidateArgs CONNECT_DEFAULTS stored kwargs),
          k ∈ elasticConnectKeys) →
        get_connect_args CONNECT_DEFAULTS stored kwargs =
          Except.error (ElasticError.userConfig
            "One or more connection parameters missing for Elastic connector"
            (missingReqdArgs (consolidateArgs CONNECT_DEFAULTS stored kwargs))
            ("Required parameters are " ++ pyJoin ", " ELASTIC_REQD_ARGS)
            "All parameters:" elasticParamDescLines
            "no Elastic connection parameters"))) := by
  intro stored kwargs hs hk
  have hnot : "host" ∉ dictKeys (consolidateArgs CONNECT_DEFAULTS stored
      kwargs) := by
    intro hmem
    rw [consolidateArgs] at hmem
    rcases (mem_dictKeys_dictUpdate _).1 hmem with h1 | h2
    · rcases (mem_dictKeys_dictUpdate _).1 h1 with hd | hs'
      · exact absurd hd (by decide)
      · exact hs hs'
    · exact hk h2
  have hmiss : "host" ∈ missingReqdArgs (consolidateArgs CONNECT_DEFAULTS
      stored kwargs) := mem_missingReqdArgs.2 ⟨by decide, hnot⟩
  exact ⟨dictGet_eq_none_of_not_mem hnot, hmiss,
    fun hrec => get_connect_args_error_of_missing hrec
      (List.ne_nil_of_mem hmiss)⟩

/-- Witness for C4: stored settings with username and password but no
host leave the consolidation without a host entry and with host among
the missing keys. -/
theorem host_required_no_default_witness :
    dictGet (consolidateArgs CONNECT_DEFAULTS storedUserPass []) "host"
        = none ∧
    "host" ∈ missingReqdArgs (consolidateArgs CONNECT_DEFAULTS
        storedUserPass []) :=
  ⟨(host_required_no_default storedUserPass [] (by decide) (by decide)).1,
   (host_required_no_default storedUserPass [] (by decide) (by decide)).2.1⟩

/-- C8: whenever the consolidation of defaults, stored settings and
overrides contains a key outside the six recognized options,
`_get_connect_args` fails with the unrecognized-argument error carrying
the unrecognized keys; nothing in the hypothesis requires the required
keys to be present, so this allow-list rejection fires before (and
instead of) the missing-required-key check. -/
theorem unrecognized_key_rejected :
    ∀ (stored kwargs : List (String × Value)) (k : String),
      k ∈ dictKeys (consolidateArgs CONNECT_DEFAULTS stored kwargs) →
      k ∉ elasticConnectKeys →
      get_connect_args CONNECT_DEFAULTS stored kwargs =
        Except.error (ElasticError.unrecognizedArgument
          ((dictKeys (consolidateArgs CONNECT_DEFAULTS stored
            kwargs)).filter
              (fun a => !(elasticConnectKeys.contains a)))) := by
  intro stored kwargs k hk hnk
  have hc := check_kwargs_error hk hnk
  simp [get_connect_args, hc]

/-- Witness for C8: the consolidation holding the unrecognized key
`bogus` is rejected with the allow-list error. -/
theorem unrecognized_key_rejected_witness :
    get_connect_args CONNECT_DEFAULTS [] kwBogus =
      Except.error (ElasticError.unrecognizedArgument
        ((dictKeys (consolidateArgs CONNECT_DEFAULTS [] kwBogus)).filter
          (fun a => !(elasticConnectKeys.contains a)))) :=
  unrecognized_key_rejected [] kwBogus "bogus" (by decide) (by decide)

/-- C5 counterexample: at a datetime with microsecond = 0 the formatter
omits the fractional-seconds part (and its dot) entirely, so the output
is not of the always-six-digit form the claim prescribes. -/
theorem format_datetime_counterexample :
    format_datetime dtZeroMicro = "\"2020-01-01 00:00:00\"" ∧
    specDatetimeForm dtZeroMicro = "\"2020-01-01 00:00:00.000000\"" ∧
    format_datetime dtZeroMicro ≠ specDatetimeForm dtZeroMicro :=
  ⟨by decide, by decide, by decide⟩

/-- C5 (amended): for every datetime whose microsecond component is
nonzero, `_format_datetime` produces exactly the quoted
`"YYYY-MM-DD HH:MM:SS.ffffff"` form (date and time separated by one
space, six-digit zero-padded fraction, one double quote at each end);
when the microsecond component is zero the fractional part and its dot
are omitted. -/
theorem format_datetime_amended :
    (∀ dt : PyDatetime, dt.microsecond ≠ 0 →
      format_datetime dt = specDatetimeForm dt) ∧
    (∀ dt : PyDatetime, dt.microsecond = 0 →
      format_datetime dt =
        "\"" ++ padZero 4 dt.year ++ "-" ++ padZero 2 dt.month ++ "-"
          ++ padZero 2 dt.day ++ " " ++ padZero 2 dt.hour ++ ":"
          ++ padZero 2 dt.minute ++ ":" ++ padZero 2 dt.second ++ "\"") := by
  constructor
  · intro dt h
    simp only [format_datetime, isoformatSpace, specDatetimeForm, if_neg h]
    simp only [String.append_assoc]
  · intro dt h
    simp only [format_datetime, isoformatSpace, if_pos h]
    simp only [String.append_assoc, String.append_empty]

/-- Witness for C5: at a nonzero-microsecond datetime the formatter's
output coincides with the prescribed six-digit-fraction form. -/
theorem format_datetime_amended_witness :
    format_datetime dtWithMicro = specDatetimeForm dtWithMicro :=
  format_datetime_amended.1 dtWithMicro (by decide)

/-- C9: `_format_list` returns the comma-separated concatenation of the
items each wrapped in double quotes, with no surrounding brackets; on
`["a","b","c"]` it yields `"a","b","c"`. -/
theorem format_list_spec :
    (∀ l : List String, format_list l = specQuotedJoin l) ∧
    format_list ["a", "b", "c"] = "\"a\",\"b\",\"c\"" :=
  ⟨format_list_eq_specQuotedJoin, by decide⟩

/-- C10: `_format_list` performs no escaping: a single item is emitted
verbatim between its two quotes, the single-item list whose item is
`a"b` yields `"a"b"` — which is not a well-formed sequence of quoted
literals (it has three quote characters where any well-formed sequence
has an even number) — the empty list yields the empty string, and every
item of the input appears verbatim, wrapped in quotes, as a contiguous
substring of the output. -/
theorem format_list_no_escaping :
    (∀ s : String, format_list [s] = "\"" ++ s ++ "\"") ∧
    format_list ["a\"b"] = "\"a\"b\"" ∧
    ¬ IsWellFormedQuotedSeq (format_list ["a\"b"]) ∧
    format_list [] = "" ∧
    (∀ (l : List String) (s : String), s ∈ l →
      ∃ p q, format_list l = p ++ ("\"" ++ s ++ "\"") ++ q) := by
  refine ⟨fun s => rfl, by decide, ?_, rfl, ?_⟩
  · rintro ⟨items, hnq, heq⟩
    have hcount := quoteCount_specQuotedJoin items hnq
    rw [heq] at hcount
    have h3 : quoteCount (format_list ["a\"b"]) = 3 := by decide
    rw [h3] at hcount
    omega
  · intro l s hs
    obtain ⟨p, q, hpq⟩ := specQuotedJoin_infix l s hs
    exact ⟨p, q, by rw [format_list_eq_specQuotedJoin l, hpq]⟩

/-- Witness for C10: applied to the two-item list ["x", "y"], the
formatter yields "x","y", and its second item appears quoted, verbatim
and contiguously in that output. -/
theorem format_list_no_escaping_witness :
    format_list ["x", "y"] = "\"x\",\"y\"" ∧
    ∃ p q, format_list ["x", "y"] = p ++ ("\"" ++ "y" ++ "\"") ++ q :=
  ⟨by decide,
   format_list_no_escaping.2.2.2.2 ["x", "y"] "y" (by decide)⟩
